import Mathlib

/-!
Verification of the datahub-metadata-day-2022 metadata-ingestion core:
a shallow embedding of the stateful change-proposal emission and
checkpoint-diff engine, with theorems checking the natural-language
specification against the code.

Embedded modules:
* `src/datahub/emitter/serialization_helper.py` (`_json_transform`,
  `pre_json_transform`, `post_json_transform`)
* `src/datahub/emitter/mcp.py` (`MetadataChangeProposalWrapper`)
* `src/datahub/ingestion/api/workunit.py` (`MetadataWorkUnit`)
* `src/datahub/ingestion/extractor/mce_extractor.py` (`WorkUnitRecordExtractor`)
* `src/datahub/ingestion/source/pulsar.py` (`soft_delete_dataset`,
  `gen_removed_entity_workunits`)
* `src/datahub/api/entities/dataprocess/dataprocess_instance.py` (`_emit_mcp`)
* `src/datahub/ingestion/graph/client.py` (`get_latest_timeseries_value`)
-/

namespace DatahubCore

/-- A Python JSON-like value as handled by `_json_transform`: nested dicts
(ordered association lists, as Python dicts preserve insertion order),
lists, strings, numbers, booleans, `None`, and `bytes`
(whose payload we carry as the decoded text, since the code only ever
decodes them). -/
inductive JVal where
  | str (s : String)
  | num (n : Int)
  | bool (b : Bool)
  | null
  | bytes (s : String)
  | arr (items : List JVal)
  | obj (entries : List (String × JVal))

/-- Python `value is None`. -/
def JVal.isNone : JVal → Bool
  | .null => true
  | _ => false

/-- Python `d[k]` / `k in d` on an insertion-ordered dict: first binding wins. -/
def lookupKey (entries : List (String × JVal)) (k : String) : Option JVal :=
  match entries with
  | [] => none
  | (k', v) :: rest => if k' = k then some v else lookupKey rest k

/-- Python `s.startswith(p)`, spelled out on the character lists. -/
def strStartsWith (s p : String) : Bool :=
  p.data.isPrefixOf s.data

/-- Python `s.replace(p, t, 1)` in the only situation the code uses it:
under a `startswith(p)` guard, so the first occurrence of `p` is the
leading one and the result is `t ++ s[len(p):]`. -/
def strReplaceOnce (s p t : String) : String :=
  ⟨t.data ++ s.data.drop p.data.length⟩

/-- The discriminator lookup returns a structurally smaller value: the
well-foundedness fact the recursion of `json_transform` needs. -/
def sizeOf_lookupKey {entries : List (String × JVal)} {k : String} {v : JVal}
    (h : lookupKey entries k = some v) : sizeOf v < sizeOf entries := by
  induction entries with
  | nil => simp [lookupKey] at h
  | cons e rest ih =>
    obtain ⟨k', v'⟩ := e
    by_cases hk : k' = k
    · simp [lookupKey, hk] at h
      subst h
      simp
      omega
    · simp [lookupKey, hk] at h
      have := ih h
      simp
      omega

mutual

/-- Embedding of `_json_transform(obj, from_pattern, to_pattern)` from
`serialization_helper.py`.  Whole-dict behavior, in source order:
a single-key dict whose key starts with `fromPat` is rewritten and only
its value recursed into; otherwise a dict containing `fieldDiscriminator`
collapses to the selected field (a missing or non-string selector is a
Python lookup failure, modelled as `none`); otherwise `None`-valued
entries are dropped and the rest recursed into.  Lists map elementwise,
bytes decode to text, and scalars pass through. -/
def json_transform (fromPat toPat : String) : JVal → Option JVal
  | .str s => some (.str s)
  | .num n => some (.num n)
  | .bool b => some (.bool b)
  | .null => some .null
  | .bytes s => some (.str s)
  | .arr items => (json_transform_list fromPat toPat items).map .arr
  | .obj es =>
    match es with
    | [(k, v)] =>
      if strStartsWith k fromPat then
        (json_transform fromPat toPat v).map
          (fun v' => .obj [(strReplaceOnce k fromPat toPat, v')])
      else
        match lookupKey [(k, v)] "fieldDiscriminator" with
        | some (.str f) =>
          match hv : lookupKey [(k, v)] f with
          | some v0 =>
            (json_transform fromPat toPat v0).map (fun v' => .obj [(f, v')])
          | none => none
        | some _ => none
        | none => (json_transform_entries fromPat toPat [(k, v)]).map .obj
    | es' =>
      match lookupKey es' "fieldDiscriminator" with
      | some (.str f) =>
        match hv : lookupKey es' f with
        | some v0 =>
          (json_transform fromPat toPat v0).map (fun v' => .obj [(f, v')])
        | none => none
      | some _ => none
      | none => (json_transform_entries fromPat toPat es').map .obj
termination_by x => sizeOf x
decreasing_by
  all_goals simp_wf
  all_goals first
    | (have hlk := sizeOf_lookupKey hv; simp at hlk ⊢; omega)
    | omega

/-- The `for key, value in obj.items(): if value is not None: ...` loop of
`_json_transform`. -/
def json_transform_entries (fromPat toPat : String) :
    List (String × JVal) → Option (List (String × JVal))
  | [] => some []
  | (k, v) :: rest =>
    if v.isNone then json_transform_entries fromPat toPat rest
    else do
      let v' ← json_transform fromPat toPat v
      let rest' ← json_transform_entries fromPat toPat rest
      some ((k, v') :: rest')
termination_by es => sizeOf es
decreasing_by
  all_goals simp_wf
  all_goals omega

/-- The list branch of `_json_transform`. -/
def json_transform_list (fromPat toPat : String) : List JVal → Option (List JVal)
  | [] => some []
  | x :: rest => do
    let x' ← json_transform fromPat toPat x
    let rest' ← json_transform_list fromPat toPat rest
    some (x' :: rest')
termination_by xs => sizeOf xs
decreasing_by
  all_goals simp_wf
  all_goals omega

end

/-- `pre_json_transform` from `serialization_helper.py`: internal
(`com.linkedin.pegasus2avro.`) names to wire (`com.linkedin.`) names. -/
def pre_json_transform (x : JVal) : Option JVal :=
  json_transform "com.linkedin.pegasus2avro." "com.linkedin." x

/-- `post_json_transform` from `serialization_helper.py`: wire
(`com.linkedin.`) names back to internal (`com.linkedin.pegasus2avro.`)
names. -/
def post_json_transform (x : JVal) : Option JVal :=
  json_transform "com.linkedin." "com.linkedin.pegasus2avro." x

/-- The dict fall-through of `_json_transform` (discriminator handling,
then the null-dropping loop), factored out so the shape lemmas below can
name it. -/
def json_transform_dict (fromPat toPat : String) (es : List (String × JVal)) :
    Option JVal :=
  match lookupKey es "fieldDiscriminator" with
  | some (.str f) =>
    match hv : lookupKey es f with
    | some v0 =>
      (json_transform fromPat toPat v0).map (fun v' => .obj [(f, v')])
    | none => none
  | some _ => none
  | none => (json_transform_entries fromPat toPat es).map .obj

/-! ### Well-formed aspect structures

`goodAspect` formalizes the hypotheses of the round-trip property: the
structure is built of dicts, lists and scalars (no `None` values, no
`bytes` leaves, since a byte leaf is decoded on the way out), no dict
contains a `fieldDiscriminator` key, and no single-key dict is ambiguous
for the wire direction pair — a single key either carries the internal
`com.linkedin.pegasus2avro.` namespace (a tagged union, rewritten and
rewritten back), or stays clear of the `com.linkedin.` namespace
entirely so that neither direction touches it. -/

mutual

def goodAspect : JVal → Bool
  | .str _ => true
  | .num _ => true
  | .bool _ => true
  | .null => false
  | .bytes _ => false
  | .arr items => goodAspectList items
  | .obj es =>
    match es with
    | [(k, v)] =>
      (strStartsWith k "com.linkedin.pegasus2avro." ||
        (!strStartsWith k "com.linkedin." && !(k == "fieldDiscriminator"))) &&
      goodAspect v
    | es' => goodAspectEntries es'
termination_by x => sizeOf x
decreasing_by
  all_goals simp_wf
  all_goals omega

def goodAspectList : List JVal → Bool
  | [] => true
  | v :: rest => goodAspect v && goodAspectList rest
termination_by xs => sizeOf xs
decreasing_by
  all_goals simp_wf
  all_goals omega

def goodAspectEntries : List (String × JVal) → Bool
  | [] => true
  | (k, v) :: rest =>
    !(k == "fieldDiscriminator") && goodAspect v && goodAspectEntries rest
termination_by es => sizeOf es
decreasing_by
  all_goals simp_wf
  all_goals omega

end

/-! ## Change proposals: `datahub/emitter/mcp.py`

The generated classes of `datahub.metadata.schema_classes` are not part
of the repository snapshot, so they are modelled from the spec where
noted below; `mcp.py` itself is embedded from the source. -/

/-- Modelled from the spec: an aspect payload (a `DictWrapper` subclass of
the generated `schema_classes`, which is not in `src/`) is "a named,
typed, validate-able payload" exposing `validate() -> bool` and a
structural `to_obj()` serialization.  We carry the `to_obj()` form and
the `validate()` outcome; a present payload object is taken as truthy. -/
structure DictWrapper where
  obj : JVal
  validates : Bool

/-- Modelled from the spec: `systemMetadata: Option<{lastObserved:
timestamp, runId: string}>` (§3 ChangeProposal). -/
structure SystemMetadataClass where
  lastObserved : Int
  runId : String

/-- Modelled from the spec: the opaque Kafka audit header passed through
`make_mcp` untouched. -/
structure KafkaAuditHeaderClass where
  time : Int

/-- `GenericAspectClass` as built by `_make_generic_aspect` in `mcp.py`:
`value` holds `json.dumps(pre_json_transform(obj.to_obj())).encode()`.
We keep the transformed object itself rather than its JSON text (the
dump is a faithful encoding of it); a Python lookup failure inside the
transform is the `none` value. -/
structure GenericAspectClass where
  value : Option JVal
  contentType : String

/-- `_make_generic_aspect` from `mcp.py`. -/
def make_generic_aspect (codegen_obj : DictWrapper) : GenericAspectClass :=
  { value := pre_json_transform codegen_obj.obj
    contentType := "application/json" }

/-- The generated `MetadataChangeProposalClass` (not in `src/`): the record
of fields `make_mcp` fills in. -/
structure MetadataChangeProposalClass where
  entityType : String
  entityUrn : Option String
  entityKeyAspect : Option GenericAspectClass
  changeType : String
  auditHeader : Option KafkaAuditHeaderClass
  aspectName : Option String
  aspect : Option GenericAspectClass
  systemMetadata : Option SystemMetadataClass

/-- `MetadataChangeProposalWrapper` from `mcp.py` (field for field;
`changeType` is the string constant of `ChangeTypeClass`). -/
structure MetadataChangeProposalWrapper where
  entityType : String
  changeType : String
  entityUrn : Option String
  entityKeyAspect : Option DictWrapper
  auditHeader : Option KafkaAuditHeaderClass
  aspectName : Option String
  aspect : Option DictWrapper
  systemMetadata : Option SystemMetadataClass

/-- `MetadataChangeProposalWrapper.make_mcp` from `mcp.py`: serialize the
key aspect (when it is a `DictWrapper`, i.e. whenever present here) and
the aspect payload into generic aspects and fill the generated class. -/
def MetadataChangeProposalWrapper.make_mcp
    (self : MetadataChangeProposalWrapper) : MetadataChangeProposalClass :=
  { entityType := self.entityType
    entityUrn := self.entityUrn
    entityKeyAspect := self.entityKeyAspect.map make_generic_aspect
    changeType := self.changeType
    auditHeader := self.auditHeader
    aspectName := self.aspectName
    aspect := self.aspect.map make_generic_aspect
    systemMetadata := self.systemMetadata }

/-- `MetadataChangeProposalWrapper.validate` from `mcp.py`, check for
check in source order.  The final `self.make_mcp().validate()` is the
generated class's structural self-check (not in `src/`; per the spec an
opaque boolean property of the generic-encoded form), abstracted as the
`classValid` predicate supplied to the embedding. -/
def MetadataChangeProposalWrapper.validate
    (classValid : MetadataChangeProposalClass → Bool)
    (self : MetadataChangeProposalWrapper) : Bool :=
  if self.entityUrn.isNone && self.entityKeyAspect.isNone then false
  else if self.entityUrn.isSome && self.entityKeyAspect.isSome then false
  else if (match self.entityKeyAspect with
           | some a => !a.validates
           | none => false) then false
  else if (match self.aspect with
           | some a => !a.validates
           | none => false) then false
  else if !(classValid self.make_mcp) then false
  else true

/-! ## Work units: `datahub/ingestion/api/workunit.py` -/

/-- Modelled from the spec: the generated `MetadataChangeEvent` (legacy
full snapshot, not in `src/`) bundles a list of aspects under one entity
urn in its `proposedSnapshot` and exposes an opaque `validate()`. -/
structure SnapshotClass where
  urn : String
  aspects : List DictWrapper

structure MetadataChangeEvent where
  proposedSnapshot : SnapshotClass
  systemMetadata : Option SystemMetadataClass
  validates : Bool

/-- The `metadata` union of `MetadataWorkUnit`: a legacy snapshot, a
wrapped change proposal, or a raw pre-serialized proposal. -/
inductive WorkUnitMetadata where
  | mce (e : MetadataChangeEvent)
  | mcpw (p : MetadataChangeProposalWrapper)
  | mcpRaw (r : MetadataChangeProposalClass)

structure MetadataWorkUnit where
  id : String
  metadata : WorkUnitMetadata
  treat_errors_as_warnings : Bool

/-- `MetadataWorkUnit.__init__` from `workunit.py`: a `ValueError` unless
exactly one of `mce`, `mcp`, `mcp_raw` is supplied (a present generated
object is truthy), storing the one supplied variant. -/
def mkMetadataWorkUnit (id : String) (mce : Option MetadataChangeEvent)
    (mcp : Option MetadataChangeProposalWrapper)
    (mcp_raw : Option MetadataChangeProposalClass)
    (treat_errors_as_warnings : Bool) :
    Except String MetadataWorkUnit :=
  if ((if mce.isSome then 1 else 0) + (if mcp.isSome then 1 else 0) +
      (if mcp_raw.isSome then 1 else 0) : Nat) ≠ 1 then
    .error "exactly one of mce, mcp, or mcp_raw must be provided"
  else
    match mcp_raw, mce, mcp with
    | some r, _, _ => .ok ⟨id, .mcpRaw r, treat_errors_as_warnings⟩
    | none, some e, none => .ok ⟨id, .mce e, treat_errors_as_warnings⟩
    | none, none, some p => .ok ⟨id, .mcpw p, treat_errors_as_warnings⟩
    | _, _, _ =>
      .error "exactly one of mce, mcp, or mcp_raw must be provided"

/-! ## Record extraction: `datahub/ingestion/extractor/mce_extractor.py` -/

/-- Modelled from the spec: `UsageAggregationClass` (generated, not in
`src/`) only needs its opaque `validate()` here. -/
structure UsageAggregationClass where
  validates : Bool

/-- The work-unit union `WorkUnitRecordExtractor.get_records` receives:
a `MetadataWorkUnit` or a `UsageStatsWorkUnit` (other classes raise). -/
inductive WorkUnit where
  | metadata (wu : MetadataWorkUnit)
  | usage (id : String) (usageStats : UsageAggregationClass)

/-- A record pulled out of a work unit. -/
inductive ExtractedRecord where
  | payload (m : WorkUnitMetadata)
  | usage (u : UsageAggregationClass)

/-- The exceptions `get_records` can raise per unit. -/
inductive ExtractError where
  | attributeError (msg : String)
  | valueError (msg : String)

/-- `RecordEnvelope(record, {"workunit_id": ...})`. -/
structure RecordEnvelope where
  record : ExtractedRecord
  workunit_id : String

/-- The `workunit.metadata.systemMetadata = SystemMetadata(lastObserved=
get_sys_time(), runId=self.ctx.run_id)` stamping in `get_records`,
applied to whichever of the three payload variants is carried. -/
def stampSystemMetadata (sys_time : Int) (run_id : String) :
    WorkUnitMetadata → WorkUnitMetadata
  | .mce e => .mce { e with systemMetadata := some ⟨sys_time, run_id⟩ }
  | .mcpw p => .mcpw { p with systemMetadata := some ⟨sys_time, run_id⟩ }
  | .mcpRaw r => .mcpRaw { r with systemMetadata := some ⟨sys_time, run_id⟩ }

/-- `workunit.metadata.validate()` for each payload variant: generated
validators are opaque (spec), the wrapper's is the embedded
`MetadataChangeProposalWrapper.validate`. -/
def metadataValidates (classValid : MetadataChangeProposalClass → Bool) :
    WorkUnitMetadata → Bool
  | .mce e => e.validates
  | .mcpw p => p.validate classValid
  | .mcpRaw r => classValid r

/-- `WorkUnitRecordExtractor.get_records` from `mce_extractor.py` for one
work unit: stamp `systemMetadata`; an `MetadataChangeEvent` with an empty
aspect list raises `AttributeError`; a payload failing `validate()`
raises `ValueError` (we keep the message's fixed prefix; the
pretty-printed payload rendering is a best-effort debugging aid); else
yield one `RecordEnvelope` carrying the unit's id. -/
def get_records (sys_time : Int) (run_id : String)
    (classValid : MetadataChangeProposalClass → Bool) :
    WorkUnit → Except ExtractError (List RecordEnvelope)
  | .metadata wu =>
    let md := stampSystemMetadata sys_time run_id wu.metadata
    if (match md with
        | .mce e => e.proposedSnapshot.aspects.length == 0
        | _ => false) then
      .error (.attributeError "every mce must have at least one aspect")
    else if !(metadataValidates classValid md) then
      .error (.valueError "source produced an invalid metadata work unit")
    else
      .ok [⟨.payload md, wu.id⟩]
  | .usage id usageStats =>
    if !usageStats.validates then
      .error (.valueError "source produced an invalid usage stat")
    else
      .ok [⟨.usage usageStats, id⟩]

/-! ## Stale-entity removal: `datahub/ingestion/source/pulsar.py` -/

/-- Modelled from the spec: `KafkaCheckpointState` (from
`datahub.ingestion.source.state.kafka_state`, not in `src/`) is "an
opaque, job-specific accumulator of identifiers observed during the
current run (minimally: a set of entity URNs)" (§3 CheckpointState). -/
structure KafkaCheckpointState where
  urns : List String

/-- Modelled from the spec: `get_topic_urns_not_in` (not in `src/`) is the
CheckpointState operation returning the "urns present in self but absent
from other" (§3), i.e. the set difference previous-minus-current used by
the differ (§4.5). -/
def KafkaCheckpointState.get_topic_urns_not_in
    (self other : KafkaCheckpointState) : List String :=
  self.urns.filter (fun u => !(other.urns.contains u))

/-- The `stateful_ingestion` sub-config consulted by the differ. -/
structure StatefulIngestionConfig where
  remove_stale_metadata : Bool

/-- The slice of `PulsarSourceConfig` the differ reads. -/
structure PulsarSourceConfig where
  stateful_ingestion : Option StatefulIngestionConfig

/-- `Checkpoint` as used by `gen_removed_entity_workunits`: the code
guards on `state is not None`, so the state is carried as an option. -/
structure Checkpoint where
  job_name : String
  pipeline_name : String
  platform_instance_id : String
  run_id : String
  state : Option KafkaCheckpointState

/-- `ChangeTypeClass.UPSERT` (a string constant in the generated code). -/
def ChangeTypeClass_UPSERT : String := "UPSERT"

/-- Modelled from the spec: the generated `StatusClass(removed=...)`
aspect — the "aspect payload marking the entity removed" (§4.5) — with
its `to_obj()` dict and a passing self-`validate()`. -/
def StatusClass (removed : Bool) : DictWrapper :=
  { obj := .obj [("removed", .bool removed)], validates := true }

/-- `PulsarSource.soft_delete_dataset` from `pulsar.py`: one work unit
(id `soft-delete-{type}-{urn}`) carrying an UPSERT change proposal of the
`status` aspect with `removed=True` for the urn. -/
def soft_delete_dataset (urn : String) (type_ : String) : List MetadataWorkUnit :=
  let mcp : MetadataChangeProposalWrapper :=
    { entityType := "dataset"
      changeType := ChangeTypeClass_UPSERT
      entityUrn := some urn
      entityKeyAspect := none
      auditHeader := none
      aspectName := some "status"
      aspect := some (StatusClass true)
      systemMetadata := none }
  [{ id := "soft-delete-" ++ type_ ++ "-" ++ urn
     metadata := .mcpw mcp
     treat_errors_as_warnings := false }]

/-- `PulsarSource.gen_removed_entity_workunits` from `pulsar.py`.  The
checkpoints returned by `get_last_checkpoint` / `get_current_checkpoint`
(stateful-ingestion base class, not in `src/`) are supplied as inputs.
When stateful ingestion is configured with `remove_stale_metadata`, both
checkpoints exist and both carry state, each urn of the previous state
absent from the current state is soft-deleted; otherwise nothing is
yielded. -/
def gen_removed_entity_workunits (config : PulsarSourceConfig)
    (last_checkpoint : Option Checkpoint) (cur_checkpoint : Option Checkpoint) :
    List MetadataWorkUnit :=
  match config.stateful_ingestion, last_checkpoint, cur_checkpoint with
  | some si, some last, some cur =>
    if si.remove_stale_metadata then
      match last.state, cur.state with
      | some ls, some cs =>
        (ls.get_topic_urns_not_in cs).flatMap (fun urn => soft_delete_dataset urn "topic")
      | _, _ => []
    else []
  | _, _, _ => []

/-! ## Emission dispatch:
`datahub/api/entities/dataprocess/dataprocess_instance.py` -/

/-- Modelled from the spec: the two transport capability shapes of §4.6 —
synchronous `emit(proposal)` or asynchronous `emit(proposal, callback)`. -/
inductive EmitCapability where
  | sync
  | async

/-- Modelled from the spec: a transport handle (`DatahubRestEmitter` and
`DatahubKafkaEmitter` are not in `src/`).  It carries the runtime class
name that `type(emitter).__name__` observes and the emit capability it
exposes. -/
structure Emitter where
  className : String
  capability : EmitCapability

/-- The observable outcome of a dispatch: which transport `emit` was
invoked, with what arguments (`κ` is the opaque callback type). -/
inductive EmitAction (κ : Type) where
  | kafkaEmit (mcp : MetadataChangeProposalWrapper) (callback : κ)
  | restEmit (mcp : MetadataChangeProposalWrapper)

/-- Python `AssertionError` (from a failed `assert`). -/
inductive AssertionError where
  | assertionError

/-- `DataProcessInstance._emit_mcp` from `dataprocess_instance.py`: if the
handle's class name is `DatahubKafkaEmitter`, assert a callback is present
(raising before any emit call otherwise) and invoke the asynchronous
`emit(mcp, callback)`; any other handle gets the synchronous `emit(mcp)`. -/
def emit_mcp {κ : Type} (mcp : MetadataChangeProposalWrapper)
    (emitter : Emitter) (callback : Option κ) :
    Except AssertionError (EmitAction κ) :=
  if emitter.className = "DatahubKafkaEmitter" then
    match callback with
    | none => .error .assertionError
    | some cb => .ok (.kafkaEmit mcp cb)
  else
    .ok (.restEmit mcp)

/-! ## Checkpoint retrieval: `datahub/ingestion/graph/client.py` -/

/-- Python `s.split(sep)` for a one-character separator, structurally on
the character list (`"".split(":") == [""]`, empty segments kept). -/
def splitChar (sep : Char) : List Char → List (List Char)
  | [] => [[]]
  | c :: rest =>
    if c = sep then [] :: splitChar sep rest
    else
      match splitChar sep rest with
      | [] => [[c]]
      | g :: gs => (c :: g) :: gs

/-- Python `s.split(":")` on a string. -/
def pySplit (s : String) (sep : Char) : List String :=
  (splitChar sep s.data).map (fun g => ⟨g⟩)

/-- `DataHubGraph._guess_entity_type`: assert the `urn:li:` form, then
`urn.split(":")[2]` (the prefix guarantees at least three segments). -/
def guess_entity_type (urn : String) : Except String String :=
  if strStartsWith urn "urn:li:" then .ok ((pySplit urn ':').getD 2 "")
  else .error "urns must start with urn:li:"

/-- The query body `get_latest_timeseries_value` POSTs to
`/aspects?action=getTimeseriesAspectValues`: urn, guessed entity type,
aspect name, `latestValue: true`, and the filter criteria wrapped as
`{"or": [{"and": [...]}]}` with one `EQUAL` condition per map entry. -/
def get_latest_timeseries_query_body (entity_urn : String)
    (aspect_name : String) (filter_criteria_map : List (String × String)) :
    Except String JVal := do
  let entity ← guess_entity_type entity_urn
  let filter_criteria := filter_criteria_map.map (fun kv =>
    JVal.obj [("field", .str kv.1), ("value", .str kv.2),
              ("condition", .str "EQUAL")])
  .ok (.obj [
    ("urn", .str entity_urn),
    ("entity", .str entity),
    ("aspect", .str aspect_name),
    ("latestValue", .bool true),
    ("filter", .obj [("or", .arr [.obj [("and", .arr filter_criteria)]])])])

/-- Python truthiness of a JSON value (`if values:` / `if aspect_json:`). -/
def JVal.truthy : JVal → Bool
  | .null => false
  | .bool b => b
  | .num n => !(n == 0)
  | .str s => !(s.length == 0)
  | .bytes s => !(s.length == 0)
  | .arr l => !l.isEmpty
  | .obj es => !es.isEmpty

/-- Python `d.get(k)` on a JSON value (missing key or non-dict: `None`). -/
def jget (v : JVal) (k : String) : Option JVal :=
  match v with
  | .obj es => lookupKey es k
  | _ => none

/-- Python `d.get(k, default)`. -/
def jgetD (v : JVal) (k : String) (dflt : JVal) : JVal :=
  (jget v k).getD dflt

/-- The response handling of `get_latest_timeseries_value`: read
`resp["value"]["values"]`; a missing or empty (falsy) list returns
`None`; otherwise assert exactly one value and extract
`values[0]["aspect"]["value"]` (the serialized aspect, fed to the
generated `from_obj`, which is not in `src/`; we return the payload), a
missing or falsy payload being an `OperationalError`. -/
def get_latest_timeseries_value (resp : JVal) :
    Except String (Option JVal) :=
  let values : Option JVal := jget (jgetD resp "value" (.obj [])) "values"
  match values with
  | none => .ok none
  | some vs =>
    if !vs.truthy then .ok none
    else
      match vs with
      | .arr [v0] =>
        match jget (jgetD v0 "aspect" (.obj [])) "value" with
        | some aj =>
          if aj.truthy then .ok (some aj)
          else .error "Failed to find aspect in response"
        | none => .error "Failed to find aspect in response"
      | _ => .error "assert len(values) == 1"

/-! ### Shape lemmas for `json_transform` -/

@[simp] theorem jt_str (f t s) : json_transform f t (.str s) = some (.str s) := by
  simp [json_transform]

@[simp] theorem jt_num (f t n) : json_transform f t (.num n) = some (.num n) := by
  simp [json_transform]

@[simp] theorem jt_bool (f t b) : json_transform f t (.bool b) = some (.bool b) := by
  simp [json_transform]

@[simp] theorem jt_null (f t) : json_transform f t .null = some .null := by
  simp [json_transform]

@[simp] theorem jt_bytes (f t s) : json_transform f t (.bytes s) = some (.str s) := by
  simp [json_transform]

@[simp] theorem jt_arr (f t items) :
    json_transform f t (.arr items) = (json_transform_list f t items).map .arr := by
  simp [json_transform]

theorem jt_obj_single_hit {k : String} (f t : String) (v : JVal)
    (h : strStartsWith k f = true) :
    json_transform f t (.obj [(k, v)]) =
      (json_transform f t v).map (fun v' => .obj [(strReplaceOnce k f t, v')]) := by
  rw [json_transform]
  simp [h]

theorem jt_obj_single_miss {k : String} (f t : String) (v : JVal)
    (h : strStartsWith k f = false) :
    json_transform f t (.obj [(k, v)]) = json_transform_dict f t [(k, v)] := by
  rw [json_transform]
  simp only [h, Bool.false_eq_true, if_false, json_transform_dict]

theorem jt_obj_ne_single (f t : String) (es : List (String × JVal))
    (h : es.length ≠ 1) :
    json_transform f t (.obj es) = json_transform_dict f t es := by
  match es with
  | [] =>
    rw [json_transform]
    · rw [json_transform_dict]
    · intro k v hkv
      exact absurd hkv (by simp)
  | [(k, v)] => simp at h
  | (k1, v1) :: (k2, v2) :: rest =>
    rw [json_transform]
    · rw [json_transform_dict]
    · intro k v hkv
      exact absurd hkv (by simp)

@[simp] theorem jte_nil (f t) : json_transform_entries f t [] = some [] := by
  simp [json_transform_entries]

theorem jte_cons_null (f t k rest) :
    json_transform_entries f t ((k, .null) :: rest) =
      json_transform_entries f t rest := by
  simp [json_transform_entries, JVal.isNone]

theorem jte_cons (f t k rest) {v : JVal} (h : v.isNone = false) :
    json_transform_entries f t ((k, v) :: rest) = (do
      let v' ← json_transform f t v
      let rest' ← json_transform_entries f t rest
      some ((k, v') :: rest')) := by
  simp [json_transform_entries, h]

@[simp] theorem jtl_nil (f t) : json_transform_list f t [] = some [] := by
  simp [json_transform_list]

theorem jtl_cons (f t x rest) :
    json_transform_list f t (x :: rest) = (do
      let x' ← json_transform f t x
      let rest' ← json_transform_list f t rest
      some (x' :: rest')) := by
  simp [json_transform_list]

/-! ### Size lemmas and strong induction for `JVal` -/

theorem sizeOf_mem_jlist {v : JVal} {l : List JVal} (h : v ∈ l) :
    sizeOf v < sizeOf l := by
  induction l with
  | nil => simp at h
  | cons x rest ih =>
    rcases List.mem_cons.mp h with h' | h'
    · subst h'; simp; omega
    · have := ih h'; simp; omega

theorem sizeOf_mem_entries {kv : String × JVal} {es : List (String × JVal)}
    (h : kv ∈ es) : sizeOf kv.2 < sizeOf es := by
  induction es with
  | nil => simp at h
  | cons x rest ih =>
    rcases List.mem_cons.mp h with h' | h'
    · subst h'
      obtain ⟨k, v⟩ := kv
      simp
      omega
    · have := ih h'; simp; omega

theorem JVal.strongInduction (P : JVal → Prop)
    (ind : ∀ x : JVal, (∀ y : JVal, sizeOf y < sizeOf x → P y) → P x) :
    ∀ x, P x := by
  have key : ∀ (n : Nat) (y : JVal), sizeOf y < n → P y := by
    intro n
    induction n with
    | zero => intro y hy; omega
    | succ n ih => intro y hy; exact ind y (fun z hz => ih z (by omega))
  intro x
  exact ind x (fun y hy => key (sizeOf x) y hy)

/-! ### String facts used by the round-trip proof -/

theorem strStartsWith_data {s p : String} (h : strStartsWith s p = true) :
    p.data ++ s.data.drop p.data.length = s.data := by
  obtain ⟨t, ht⟩ := List.isPrefixOf_iff_prefix.mp h
  rw [← ht, List.drop_left]

theorem strStartsWith_replace {k P L : String} :
    strStartsWith (strReplaceOnce k P L) L = true := by
  simp only [strStartsWith, strReplaceOnce]
  exact List.isPrefixOf_iff_prefix.mpr ⟨_, rfl⟩

theorem strReplaceOnce_roundtrip {k P L : String} (h : strStartsWith k P = true) :
    strReplaceOnce (strReplaceOnce k P L) L P = k := by
  have hd := strStartsWith_data h
  show (⟨P.data ++ (L.data ++ k.data.drop P.data.length).drop L.data.length⟩ : String) = k
  rw [List.drop_left, hd]

@[simp] theorem good_str (s) : goodAspect (.str s) = true := by simp [goodAspect]
@[simp] theorem good_num (n) : goodAspect (.num n) = true := by simp [goodAspect]
@[simp] theorem good_bool (b) : goodAspect (.bool b) = true := by simp [goodAspect]
@[simp] theorem good_null : goodAspect .null = false := by simp [goodAspect]
@[simp] theorem good_bytes (s) : goodAspect (.bytes s) = false := by simp [goodAspect]
@[simp] theorem good_arr (items) : goodAspect (.arr items) = goodAspectList items := by
  simp [goodAspect]

theorem good_obj_single (k v) :
    goodAspect (.obj [(k, v)]) =
      ((strStartsWith k "com.linkedin.pegasus2avro." ||
        (!strStartsWith k "com.linkedin." && !(k == "fieldDiscriminator"))) &&
       goodAspect v) := by
  rw [goodAspect]

theorem good_obj_ne_single (es : List (String × JVal)) (h : es.length ≠ 1) :
    goodAspect (.obj es) = goodAspectEntries es := by
  match es with
  | [] =>
    rw [goodAspect]
    intro k v hkv
    exact absurd hkv (by simp)
  | [(k, v)] => simp at h
  | (k1, v1) :: (k2, v2) :: rest =>
    rw [goodAspect]
    intro k v hkv
    exact absurd hkv (by simp)

@[simp] theorem goodl_nil : goodAspectList [] = true := by simp [goodAspectList]
@[simp] theorem goodl_cons (v rest) :
    goodAspectList (v :: rest) = (goodAspect v && goodAspectList rest) := by
  simp [goodAspectList]
@[simp] theorem goode_nil : goodAspectEntries [] = true := by simp [goodAspectEntries]
@[simp] theorem goode_cons (k v rest) :
    goodAspectEntries ((k, v) :: rest) =
      (!(k == "fieldDiscriminator") && goodAspect v && goodAspectEntries rest) := by
  simp [goodAspectEntries]

theorem good_not_null {v : JVal} (h : goodAspect v = true) : v.isNone = false := by
  cases v <;> simp_all [JVal.isNone]

theorem goode_keys {es : List (String × JVal)} (h : goodAspectEntries es = true) :
    ∀ kv ∈ es, ¬(kv.1 = "fieldDiscriminator") := by
  induction es with
  | nil => simp
  | cons kv rest ih =>
    obtain ⟨k, v⟩ := kv
    simp at h
    intro kv' hkv'
    rcases List.mem_cons.mp hkv' with h' | h'
    · subst h'; simpa using h.1.1
    · exact ih h.2 kv' h'

theorem lookupKey_eq_none {es : List (String × JVal)} {k : String}
    (h : ∀ kv ∈ es, ¬(kv.1 = k)) : lookupKey es k = none := by
  induction es with
  | nil => rfl
  | cons kv rest ih =>
    obtain ⟨k', v⟩ := kv
    have hk : ¬(k' = k) := h (k', v) (List.mem_cons_self _ _)
    simp [lookupKey, hk]
    exact ih (fun kv' hkv' => h kv' (List.mem_cons_of_mem _ hkv'))

theorem jval_sizeOf_pos (v : JVal) : 1 ≤ sizeOf v := by
  cases v <;> simp <;> omega

/-! ### The round-trip: `post_json_transform` undoes `pre_json_transform` -/

theorem post_some_not_null {v v' : JVal}
    (h2 : post_json_transform v' = some v) (hvn : v.isNone = false) :
    v'.isNone = false := by
  match v' with
  | .null =>
    exfalso
    simp [post_json_transform] at h2
    rw [← h2] at hvn
    simp [JVal.isNone] at hvn
  | .str _ => rfl
  | .num _ => rfl
  | .bool _ => rfl
  | .bytes _ => rfl
  | .arr _ => rfl
  | .obj _ => rfl

theorem list_roundtrip {B : Nat}
    (IH : ∀ y : JVal, sizeOf y < B → goodAspect y = true →
      (pre_json_transform y).bind post_json_transform = some y) :
    ∀ items : List JVal, sizeOf items ≤ B → goodAspectList items = true →
      ∃ items',
        json_transform_list "com.linkedin.pegasus2avro." "com.linkedin." items
          = some items' ∧
        json_transform_list "com.linkedin." "com.linkedin.pegasus2avro." items'
          = some items := by
  intro items
  induction items with
  | nil => intro _ _; exact ⟨[], by simp, by simp⟩
  | cons x rest ih =>
    intro hsize hgood
    have hcons : sizeOf (x :: rest) = 1 + sizeOf x + sizeOf rest := by simp
    rw [hcons] at hsize
    simp only [goodl_cons, Bool.and_eq_true] at hgood
    obtain ⟨hx, hrest⟩ := hgood
    obtain ⟨rest', hr1, hr2⟩ := ih (by omega) hrest
    have hxr := IH x (by omega) hx
    rw [Option.bind_eq_some] at hxr
    obtain ⟨x', hx1, hx2⟩ := hxr
    simp only [pre_json_transform] at hx1
    simp only [post_json_transform] at hx2
    refine ⟨x' :: rest', ?_, ?_⟩
    · rw [jtl_cons, hx1, hr1]
      rfl
    · rw [jtl_cons, hx2, hr2]
      rfl

theorem entries_roundtrip {B : Nat}
    (IH : ∀ y : JVal, sizeOf y < B → goodAspect y = true →
      (pre_json_transform y).bind post_json_transform = some y) :
    ∀ es : List (String × JVal), sizeOf es ≤ B → goodAspectEntries es = true →
      ∃ es',
        json_transform_entries "com.linkedin.pegasus2avro." "com.linkedin." es
          = some es' ∧
        es'.map Prod.fst = es.map Prod.fst ∧
        json_transform_entries "com.linkedin." "com.linkedin.pegasus2avro." es'
          = some es := by
  intro es
  induction es with
  | nil => intro _ _; exact ⟨[], by simp, by simp, by simp⟩
  | cons kv rest ih =>
    obtain ⟨k, v⟩ := kv
    intro hsize hgood
    have hcons : sizeOf ((k, v) :: rest) = 1 + (1 + sizeOf k + sizeOf v) + sizeOf rest := by
      simp
    rw [hcons] at hsize
    simp only [goode_cons, Bool.and_eq_true] at hgood
    obtain ⟨⟨_, hv⟩, hrest⟩ := hgood
    obtain ⟨rest', hr1, hrk, hr2⟩ := ih (by omega) hrest
    have hvr := IH v (by omega) hv
    rw [Option.bind_eq_some] at hvr
    obtain ⟨v', hv1, hv2⟩ := hvr
    have hvn : v.isNone = false := good_not_null hv
    have hv'n : v'.isNone = false := post_some_not_null hv2 hvn
    simp only [pre_json_transform] at hv1
    simp only [post_json_transform] at hv2
    refine ⟨(k, v') :: rest', ?_, ?_, ?_⟩
    · rw [jte_cons _ _ _ _ hvn, hv1, hr1]
      rfl
    · simpa using hrk
    · rw [jte_cons _ _ _ _ hv'n, hv2, hr2]
      rfl

theorem obj_dict_roundtrip {B : Nat}
    (IH : ∀ y : JVal, sizeOf y < B → goodAspect y = true →
      (pre_json_transform y).bind post_json_transform = some y)
    (es : List (String × JVal)) (hsize : sizeOf es ≤ B) (hlen : es.length ≠ 1)
    (hge : goodAspectEntries es = true) :
    (pre_json_transform (.obj es)).bind post_json_transform = some (.obj es) := by
  obtain ⟨es', h1, hkeys, h3⟩ := entries_roundtrip IH es hsize hge
  have hdisc : lookupKey es "fieldDiscriminator" = none :=
    lookupKey_eq_none (goode_keys hge)
  have hkeys' : ∀ kv ∈ es', ¬(kv.1 = "fieldDiscriminator") := by
    intro kv hkv
    have hmem : kv.1 ∈ es.map Prod.fst := by
      rw [← hkeys]
      exact List.mem_map_of_mem _ hkv
    obtain ⟨kv0, hkv0, hfst⟩ := List.mem_map.mp hmem
    rw [← hfst]
    exact goode_keys hge kv0 hkv0
  have hdisc' : lookupKey es' "fieldDiscriminator" = none := lookupKey_eq_none hkeys'
  have hlen' : es'.length ≠ 1 := by
    have hlene : es'.length = es.length := by
      have := congrArg List.length hkeys
      simpa using this
    omega
  simp only [pre_json_transform]
  rw [jt_obj_ne_single _ _ _ hlen]
  simp only [json_transform_dict, hdisc, h1]
  simp only [Option.map_some', Option.some_bind, post_json_transform]
  rw [jt_obj_ne_single _ _ _ hlen']
  simp only [json_transform_dict, hdisc', h3, Option.map_some']

/-- `fromWire ∘ toWire = id` on well-formed aspect structures: embedding-level
statement of the inverse property of `serialization_helper.py`. -/
theorem pre_post_roundtrip :
    ∀ x : JVal, goodAspect x = true →
      (pre_json_transform x).bind post_json_transform = some x := by
  intro x
  induction x using JVal.strongInduction with
  | ind x IH =>
    intro hgood
    match x with
    | .str s => simp [pre_json_transform, post_json_transform]
    | .num n => simp [pre_json_transform, post_json_transform]
    | .bool b => simp [pre_json_transform, post_json_transform]
    | .null => simp at hgood
    | .bytes s => simp at hgood
    | .arr items =>
      have hsz : sizeOf (JVal.arr items) = 1 + sizeOf items := by simp
      obtain ⟨items', h1, h2⟩ :=
        list_roundtrip (B := sizeOf items)
          (fun y hy => IH y (by omega)) items (le_refl _) (by simpa using hgood)
      simp only [pre_json_transform, jt_arr, h1]
      simp only [Option.map_some', Option.some_bind, post_json_transform, jt_arr, h2]
    | .obj [] =>
      exact obj_dict_roundtrip (B := sizeOf ([] : List (String × JVal)))
        (fun y hy _ => absurd hy (by have := jval_sizeOf_pos y; simp at hy ⊢; omega))
        [] (le_refl _) (by simp)
        (by rw [good_obj_ne_single _ (by simp)] at hgood; simpa using hgood)
    | .obj ((k1, v1) :: (k2, v2) :: rest) =>
      have hsz : sizeOf (JVal.obj ((k1, v1) :: (k2, v2) :: rest)) =
          1 + sizeOf ((k1, v1) :: (k2, v2) :: rest) := by simp
      exact obj_dict_roundtrip (B := sizeOf ((k1, v1) :: (k2, v2) :: rest))
        (fun y hy => IH y (by omega))
        _ (le_refl _) (by simp)
        (by rw [good_obj_ne_single _ (by simp)] at hgood; exact hgood)
    | .obj [(k, v)] =>
      rw [good_obj_single] at hgood
      simp only [Bool.and_eq_true] at hgood
      obtain ⟨hk, hv⟩ := hgood
      have hszv : sizeOf v < sizeOf (JVal.obj [(k, v)]) := by
        simp
        omega
      have hvr := IH v hszv hv
      rw [Option.bind_eq_some] at hvr
      obtain ⟨v', hv1, hv2⟩ := hvr
      have hvn : v.isNone = false := good_not_null hv
      have hv'n : v'.isNone = false := post_some_not_null hv2 hvn
      simp only [pre_json_transform] at hv1
      simp only [post_json_transform] at hv2
      by_cases hhit : strStartsWith k "com.linkedin.pegasus2avro." = true
      · simp only [pre_json_transform]
        rw [jt_obj_single_hit _ _ _ hhit]
        simp only [hv1, Option.map_some', Option.some_bind, post_json_transform]
        rw [jt_obj_single_hit _ _ _ strStartsWith_replace]
        simp only [hv2, Option.map_some', strReplaceOnce_roundtrip hhit]
      · have hmiss : strStartsWith k "com.linkedin.pegasus2avro." = false := by
          simpa using hhit
        have hrest : strStartsWith k "com.linkedin." = false ∧
            ¬(k = "fieldDiscriminator") := by
          simp only [Bool.or_eq_true] at hk
          rcases hk with h | h
          · exact absurd h hhit
          · simpa using h
        obtain ⟨hnl, hnd⟩ := hrest
        have hd1 : lookupKey [(k, v)] "fieldDiscriminator" = none := by
          apply lookupKey_eq_none
          intro kv hkv
          simp at hkv
          subst hkv
          exact hnd
        have hd2 : lookupKey [(k, v')] "fieldDiscriminator" = none := by
          apply lookupKey_eq_none
          intro kv hkv
          simp at hkv
          subst hkv
          exact hnd
        simp only [pre_json_transform]
        rw [jt_obj_single_miss _ _ _ hmiss]
        simp only [json_transform_dict, hd1]
        rw [jte_cons _ _ _ _ hvn]
        simp [hv1]
        simp only [post_json_transform]
        rw [jt_obj_single_miss _ _ _ hnl]
        simp only [json_transform_dict, hd2]
        rw [jte_cons _ _ _ _ hv'n]
        simp [hv2]

/-! ### Null-dropping through the entry loop (both directions) -/

theorem strStartsWith_trans {k P L : String} (h1 : strStartsWith k P = true)
    (h2 : strStartsWith P L = true) : strStartsWith k L = true := by
  simp only [strStartsWith] at h1 h2 ⊢
  have ha := List.isPrefixOf_iff_prefix.mp h2
  have hb := List.isPrefixOf_iff_prefix.mp h1
  exact List.isPrefixOf_iff_prefix.mpr (ha.trans hb)

/-- Whenever the entry loop succeeds, its output keys are exactly the keys of
the non-`None` input entries, in order. -/
theorem jte_keys (f t : String) :
    ∀ es es', json_transform_entries f t es = some es' →
      es'.map Prod.fst = (es.filter (fun kv => !kv.2.isNone)).map Prod.fst := by
  intro es
  induction es with
  | nil =>
    intro es' h
    simp at h
    subst h
    simp
  | cons kv rest ih =>
    obtain ⟨k, v⟩ := kv
    intro es' h
    by_cases hn : v.isNone = true
    · have hnull : v = .null := by cases v <;> simp [JVal.isNone] at hn ⊢
      subst hnull
      rw [jte_cons_null] at h
      rw [ih _ h]
      simp [JVal.isNone]
    · have hn' : v.isNone = false := by simpa using hn
      rw [jte_cons _ _ _ _ hn'] at h
      match hjv : json_transform f t v with
      | none => rw [hjv] at h; simp at h
      | some v' =>
        rw [hjv] at h
        match hjr : json_transform_entries f t rest with
        | none => rw [hjr] at h; simp at h
        | some rest' =>
          rw [hjr] at h
          simp at h
          rw [← h]
          simp [hn', ih _ hjr]

/-- Whenever `_json_transform` succeeds on a dict that is neither a rewritten
tagged union (single key matching the direction's source namespace) nor a
discriminated union, the result is a dict whose keys are exactly the keys of
the non-`None` entries: the `None`-valued entries are dropped, whichever
direction is running. -/
theorem jt_obj_keys (f t : String) (es : List (String × JVal))
    (hdisc : lookupKey es "fieldDiscriminator" = none)
    (hsingle : ∀ k v, es = [(k, v)] → strStartsWith k f = false) :
    ∀ y, json_transform f t (.obj es) = some y →
      ∃ es', y = .obj es' ∧
        es'.map Prod.fst = (es.filter (fun kv => !kv.2.isNone)).map Prod.fst := by
  intro y h
  have hd : json_transform_dict f t es = some y := by
    match es, hdisc, hsingle, h with
    | [], hdisc, hsingle, h =>
      rw [jt_obj_ne_single _ _ _ (by simp)] at h
      exact h
    | [(k, v)], hdisc, hsingle, h =>
      rw [jt_obj_single_miss _ _ _ (hsingle k v rfl)] at h
      exact h
    | a :: b :: r, hdisc, hsingle, h =>
      rw [jt_obj_ne_single _ _ _ (by simp)] at h
      exact h
  simp only [json_transform_dict, hdisc] at hd
  obtain ⟨es', h1, h2⟩ := Option.map_eq_some'.mp hd
  exact ⟨es', h2.symm, jte_keys _ _ _ _ h1⟩

/-! ## Helper lemmas for the claim theorems -/

theorem strAppend_cancel {p a b : String} (h : p ++ a = p ++ b) : a = b := by
  have hd : (p ++ a).data = (p ++ b).data := by rw [h]
  simp only [String.data_append] at hd
  have hc := List.append_cancel_left hd
  cases a
  cases b
  cases hc
  rfl

theorem flatMap_singleton {α β : Type} (l : List α) (f : α → β) :
    l.flatMap (fun x => [f x]) = l.map f := by
  induction l with
  | nil => rfl
  | cons x rest ih => simp [ih]

theorem soft_delete_id (urn : String) :
    ("soft-delete-" ++ "topic" ++ "-" ++ urn : String) =
      "soft-delete-topic-" ++ urn := by
  have h : ("soft-delete-" ++ "topic" ++ "-" : String) = "soft-delete-topic-" := by
    decide
  rw [h]

/-! ## Claim theorems -/

/-- C1: when the stale-entity differ runs (stateful diffing enabled, both
checkpoints present with state), it emits exactly one retraction work unit
per urn in the previous state minus the current state and no others, each
carrying an UPSERT change proposal of the `status` aspect with
`removed = true` for that urn. -/
theorem C1_stale_entity_differ (cfg : PulsarSourceConfig)
    (si : StatefulIngestionConfig) (last cur : Checkpoint)
    (ls cs : KafkaCheckpointState)
    (hsi : cfg.stateful_ingestion = some si)
    (hrm : si.remove_stale_metadata = true)
    (hls : last.state = some ls) (hcs : cur.state = some cs)
    (hnodup : ls.urns.Nodup) :
    gen_removed_entity_workunits cfg (some last) (some cur) =
      (ls.urns.filter (fun u => !(cs.urns.contains u))).map (fun urn =>
        { id := "soft-delete-topic-" ++ urn
          metadata := .mcpw
            { entityType := "dataset"
              changeType := "UPSERT"
              entityUrn := some urn
              entityKeyAspect := none
              auditHeader := none
              aspectName := some "status"
              aspect := some { obj := .obj [("removed", .bool true)], validates := true }
              systemMetadata := none }
          treat_errors_as_warnings := false }) ∧
    (∀ u : String,
      (gen_removed_entity_workunits cfg (some last) (some cur)).countP
          (fun wu => wu.id == "soft-delete-topic-" ++ u) =
        if u ∈ ls.urns ∧ ¬(u ∈ cs.urns) then 1 else 0) := by
  have heq : gen_removed_entity_workunits cfg (some last) (some cur) =
      (ls.urns.filter (fun u => !(cs.urns.contains u))).map (fun urn =>
        { id := "soft-delete-topic-" ++ urn
          metadata := .mcpw
            { entityType := "dataset"
              changeType := "UPSERT"
              entityUrn := some urn
              entityKeyAspect := none
              auditHeader := none
              aspectName := some "status"
              aspect := some { obj := .obj [("removed", .bool true)], validates := true }
              systemMetadata := none }
          treat_errors_as_warnings := false }) := by
    simp only [gen_removed_entity_workunits, hsi, hls, hcs, hrm, if_true]
    simp only [soft_delete_dataset, StatusClass, ChangeTypeClass_UPSERT,
      KafkaCheckpointState.get_topic_urns_not_in, flatMap_singleton]
    apply List.map_congr_left
    intro urn _
    rw [soft_delete_id urn]
  refine ⟨heq, ?_⟩
  intro u
  rw [heq, List.countP_map]
  have hpred : ∀ u' : String,
      (("soft-delete-topic-" ++ u' : String) == "soft-delete-topic-" ++ u) =
        (u' == u) := by
    intro u'
    by_cases h : u' = u
    · subst h
      simp
    · have hne : ¬(("soft-delete-topic-" ++ u' : String) = "soft-delete-topic-" ++ u) :=
        fun hc => h (strAppend_cancel hc)
      simp [h, hne]
  have hcount : ∀ l : List String,
      l.countP (fun u' => ("soft-delete-topic-" ++ u' : String) ==
        "soft-delete-topic-" ++ u) = l.count u := by
    intro l
    rw [List.count]
    apply List.countP_congr
    intro u' _
    simp [hpred u']
  rw [show ((fun wu : MetadataWorkUnit => wu.id == "soft-delete-topic-" ++ u) ∘
      (fun urn =>
        ({ id := "soft-delete-topic-" ++ urn
           metadata := .mcpw
             { entityType := "dataset"
               changeType := "UPSERT"
               entityUrn := some urn
               entityKeyAspect := none
               auditHeader := none
               aspectName := some "status"
               aspect := some { obj := .obj [("removed", .bool true)], validates := true }
               systemMetadata := none }
           treat_errors_as_warnings := false } : MetadataWorkUnit))) =
      (fun u' : String =>
        ("soft-delete-topic-" ++ u' : String) == "soft-delete-topic-" ++ u) from rfl]
  rw [hcount]
  by_cases hmem : u ∈ ls.urns ∧ ¬(u ∈ cs.urns)
  · rw [if_pos hmem]
    apply List.count_eq_one_of_mem (hnodup.filter _)
    rw [List.mem_filter]
    refine ⟨hmem.1, ?_⟩
    simp [hmem.2]
  · rw [if_neg hmem]
    apply List.count_eq_zero_of_not_mem
    rw [List.mem_filter]
    intro hc
    apply hmem
    refine ⟨hc.1, ?_⟩
    have := hc.2
    simp at this
    exact this

/-- C1 witness: previous state `{A, B, C}`, current state `{B, C, D}`:
exactly one retraction work unit is produced, for `A`. -/
theorem C1_stale_entity_differ_witness :
    gen_removed_entity_workunits ⟨some ⟨true⟩⟩
        (some ⟨"job", "pipe", "inst", "run1", some ⟨["A", "B", "C"]⟩⟩)
        (some ⟨"job", "pipe", "inst", "run2", some ⟨["B", "C", "D"]⟩⟩) =
      [{ id := "soft-delete-topic-" ++ "A"
         metadata := .mcpw
           { entityType := "dataset"
             changeType := "UPSERT"
             entityUrn := some "A"
             entityKeyAspect := none
             auditHeader := none
             aspectName := some "status"
             aspect := some { obj := .obj [("removed", .bool true)], validates := true }
             systemMetadata := none }
         treat_errors_as_warnings := false }] := by
  rw [(C1_stale_entity_differ ⟨some ⟨true⟩⟩ ⟨true⟩
    ⟨"job", "pipe", "inst", "run1", some ⟨["A", "B", "C"]⟩⟩
    ⟨"job", "pipe", "inst", "run2", some ⟨["B", "C", "D"]⟩⟩
    ⟨["A", "B", "C"]⟩ ⟨["B", "C", "D"]⟩ rfl rfl rfl rfl (by decide)).1]
  rfl

/-- C4: the differ yields nothing when any precondition is unmet —
stateful diffing not configured or disabled, no previous checkpoint,
previous checkpoint without state, no current checkpoint, or current
checkpoint without state. -/
theorem C4_differ_preconditions (cfg : PulsarSourceConfig)
    (last cur : Option Checkpoint)
    (h : cfg.stateful_ingestion = none ∨
      (∃ si, cfg.stateful_ingestion = some si ∧ si.remove_stale_metadata = false) ∨
      last = none ∨ (∃ lc, last = some lc ∧ lc.state = none) ∨
      cur = none ∨ (∃ cc, cur = some cc ∧ cc.state = none)) :
    gen_removed_entity_workunits cfg last cur = [] := by
  rcases h with h | ⟨si, hsi, hrm⟩ | h | ⟨lc, hlc, hst⟩ | h | ⟨cc, hcc, hst⟩
  · cases last <;> cases cur <;> simp [gen_removed_entity_workunits, h]
  · cases last <;> cases cur <;> simp [gen_removed_entity_workunits, hsi, hrm]
  · cases cur <;>
      cases hcfg : cfg.stateful_ingestion <;>
      simp [gen_removed_entity_workunits, h, hcfg]
  · subst hlc
    cases cur <;> cases hcfg : cfg.stateful_ingestion <;>
      simp [gen_removed_entity_workunits, hst, hcfg]
  · cases last <;> cases hcfg : cfg.stateful_ingestion <;>
      simp [gen_removed_entity_workunits, h, hcfg]
  · subst hcc
    cases last <;> cases hcfg : cfg.stateful_ingestion <;>
      simp [gen_removed_entity_workunits, hst, hcfg]

/-- C4 witness: with no previous checkpoint the differ yields nothing,
here for a non-trivial current state. -/
theorem C4_differ_preconditions_witness :
    gen_removed_entity_workunits ⟨some ⟨true⟩⟩ none
        (some ⟨"job", "pipe", "inst", "run2", some ⟨["B"]⟩⟩) = [] :=
  C4_differ_preconditions ⟨some ⟨true⟩⟩ none
    (some ⟨"job", "pipe", "inst", "run2", some ⟨["B"]⟩⟩)
    (Or.inr (Or.inr (Or.inl rfl)))

/-- C3: `validate()` of a change proposal is false when both `entityUrn`
and `entityKeyAspect` are set and when neither is; when exactly one is
set, it is true iff a present key aspect passes its own `validate()`, a
present aspect payload passes its own `validate()`, and the
generic-encoded form passes its structural self-check (`classValid`). -/
theorem C3_validate_spec
    (classValid : MetadataChangeProposalClass → Bool)
    (w : MetadataChangeProposalWrapper) :
    (w.entityUrn = none ∧ w.entityKeyAspect = none →
      w.validate classValid = false) ∧
    (w.entityUrn ≠ none ∧ w.entityKeyAspect ≠ none →
      w.validate classValid = false) ∧
    ((w.entityUrn = none ↔ w.entityKeyAspect ≠ none) →
      w.validate classValid =
        ((match w.entityKeyAspect with
          | some a => a.validates
          | none => true) &&
         (match w.aspect with
          | some a => a.validates
          | none => true) &&
         classValid w.make_mcp)) := by
  refine ⟨?_, ?_, ?_⟩
  · rintro ⟨hu, hk⟩
    simp [MetadataChangeProposalWrapper.validate, hu, hk]
  · rintro ⟨hu, hk⟩
    match hu2 : w.entityUrn, hk2 : w.entityKeyAspect with
    | none, _ => exact absurd hu2 hu
    | some _, none => exact absurd hk2 hk
    | some u0, some a0 =>
      simp [MetadataChangeProposalWrapper.validate, hu2, hk2]
  · intro hone
    match hu2 : w.entityUrn, hk2 : w.entityKeyAspect with
    | none, none => simp [hu2, hk2] at hone
    | some _, some _ => simp [hu2, hk2] at hone
    | none, some a0 =>
      match ha : w.aspect with
      | none =>
        cases hav : a0.validates <;>
          cases hcv : classValid w.make_mcp <;>
            simp [MetadataChangeProposalWrapper.validate, hu2, hk2, ha, hav, hcv]
      | some b0 =>
        cases hav : a0.validates <;>
          cases hbv : b0.validates <;>
            cases hcv : classValid w.make_mcp <;>
              simp [MetadataChangeProposalWrapper.validate, hu2, hk2, ha, hav, hbv, hcv]
    | some u0, none =>
      match ha : w.aspect with
      | none =>
        cases hcv : classValid w.make_mcp <;>
          simp [MetadataChangeProposalWrapper.validate, hu2, hk2, ha, hcv]
      | some b0 =>
        cases hbv : b0.validates <;>
          cases hcv : classValid w.make_mcp <;>
            simp [MetadataChangeProposalWrapper.validate, hu2, hk2, ha, hbv, hcv]

/-- C3 witness: under a passing structural self-check — urn and key aspect
both set fails; neither set fails; urn only with passing payload
validates. -/
theorem C3_validate_spec_witness :
    (MetadataChangeProposalWrapper.validate (fun _ => true)
      { entityType := "dataset", changeType := "UPSERT"
        entityUrn := some "urn:li:dataset:a"
        entityKeyAspect := some { obj := .obj [], validates := true }
        auditHeader := none, aspectName := none, aspect := none
        systemMetadata := none } = false) ∧
    (MetadataChangeProposalWrapper.validate (fun _ => true)
      { entityType := "dataset", changeType := "UPSERT"
        entityUrn := none, entityKeyAspect := none
        auditHeader := none, aspectName := none, aspect := none
        systemMetadata := none } = false) ∧
    (MetadataChangeProposalWrapper.validate (fun _ => true)
      { entityType := "dataset", changeType := "UPSERT"
        entityUrn := some "urn:li:dataset:a", entityKeyAspect := none
        auditHeader := none, aspectName := some "status"
        aspect := some { obj := .obj [("removed", .bool false)], validates := true }
        systemMetadata := none } = true) := by
  refine ⟨?_, ?_, ?_⟩
  · exact (C3_validate_spec (fun _ => true) _).2.1 ⟨by simp, by simp⟩
  · exact (C3_validate_spec (fun _ => true) _).1 ⟨rfl, rfl⟩
  · rw [(C3_validate_spec (fun _ => true) _).2.2 (by simp)]
    rfl

/-- C5: a work unit whose payload is a legacy full snapshot
(`MetadataChangeEvent`) with an empty aspect list makes `get_records`
raise (`AttributeError`), yielding no record envelope for that unit. -/
theorem C5_empty_snapshot_raises (sys_time : Int) (run_id : String)
    (classValid : MetadataChangeProposalClass → Bool)
    (wu : MetadataWorkUnit) (e : MetadataChangeEvent)
    (hmeta : wu.metadata = .mce e)
    (hempty : e.proposedSnapshot.aspects = []) :
    get_records sys_time run_id classValid (.metadata wu) =
      .error (.attributeError "every mce must have at least one aspect") := by
  simp [get_records, stampSystemMetadata, hmeta, hempty]

/-- C5 witness: a concrete empty-snapshot unit raises. -/
theorem C5_empty_snapshot_raises_witness :
    get_records 7 "run1" (fun _ => true)
        (.metadata
          { id := "unit-0"
            metadata := .mce
              { proposedSnapshot := { urn := "urn:li:dataset:a", aspects := [] }
                systemMetadata := none
                validates := true }
            treat_errors_as_warnings := false }) =
      .error (.attributeError "every mce must have at least one aspect") :=
  C5_empty_snapshot_raises 7 "run1" (fun _ => true) _ _ rfl rfl

/-- C6: constructing a `MetadataWorkUnit` raises a `ValueError` when zero
or two or more of `{mce, mcp, mcp_raw}` are supplied, and succeeds with
exactly the supplied variant stored when exactly one is. -/
theorem C6_workunit_payload_invariant (id : String)
    (mce : Option MetadataChangeEvent)
    (mcp : Option MetadataChangeProposalWrapper)
    (mcp_raw : Option MetadataChangeProposalClass) (tw : Bool) :
    (((if mce.isSome then 1 else 0) + (if mcp.isSome then 1 else 0) +
        (if mcp_raw.isSome then 1 else 0) : Nat) ≠ 1 →
      mkMetadataWorkUnit id mce mcp mcp_raw tw =
        .error "exactly one of mce, mcp, or mcp_raw must be provided") ∧
    (∀ e, mce = some e → mcp = none → mcp_raw = none →
      mkMetadataWorkUnit id mce mcp mcp_raw tw = .ok ⟨id, .mce e, tw⟩) ∧
    (∀ p, mcp = some p → mce = none → mcp_raw = none →
      mkMetadataWorkUnit id mce mcp mcp_raw tw = .ok ⟨id, .mcpw p, tw⟩) ∧
    (∀ r, mcp_raw = some r → mce = none → mcp = none →
      mkMetadataWorkUnit id mce mcp mcp_raw tw = .ok ⟨id, .mcpRaw r, tw⟩) := by
  refine ⟨?_, ?_, ?_, ?_⟩
  · intro hn
    simp [mkMetadataWorkUnit, hn]
  · rintro e rfl rfl rfl
    simp [mkMetadataWorkUnit]
  · rintro p rfl rfl rfl
    simp [mkMetadataWorkUnit]
  · rintro r rfl rfl rfl
    rfl

/-- C6 witness: two payloads supplied raises; zero raises; a single `mcp`
succeeds with that proposal stored. -/
theorem C6_workunit_payload_invariant_witness :
    (mkMetadataWorkUnit "u1"
        (some { proposedSnapshot := { urn := "a", aspects := [] }
                systemMetadata := none, validates := true })
        (some { entityType := "dataset", changeType := "UPSERT"
                entityUrn := some "a", entityKeyAspect := none
                auditHeader := none, aspectName := none, aspect := none
                systemMetadata := none })
        none false =
      .error "exactly one of mce, mcp, or mcp_raw must be provided") ∧
    (mkMetadataWorkUnit "u2" none none none false =
      .error "exactly one of mce, mcp, or mcp_raw must be provided") ∧
    (mkMetadataWorkUnit "u3" none
        (some { entityType := "dataset", changeType := "UPSERT"
                entityUrn := some "a", entityKeyAspect := none
                auditHeader := none, aspectName := none, aspect := none
                systemMetadata := none })
        none false =
      .ok ⟨"u3", .mcpw
        { entityType := "dataset", changeType := "UPSERT"
          entityUrn := some "a", entityKeyAspect := none
          auditHeader := none, aspectName := none, aspect := none
          systemMetadata := none }, false⟩) := by
  refine ⟨?_, ?_, ?_⟩
  · exact (C6_workunit_payload_invariant "u1" _ _ _ false).1 (by decide)
  · exact (C6_workunit_payload_invariant "u2" none none none false).1 (by decide)
  · exact (C6_workunit_payload_invariant "u3" none _ none false).2.2.1 _ rfl rfl rfl

/-- C7: dispatching to a handle named `DatahubKafkaEmitter` with no
callback raises the assertion before any emit is attempted; with a
callback, the asynchronous `emit(mcp, callback)` is invoked with it. -/
theorem C7_kafka_requires_callback {κ : Type}
    (mcp : MetadataChangeProposalWrapper) (em : Emitter) (cb : κ)
    (hname : em.className = "DatahubKafkaEmitter") :
    emit_mcp mcp em (none : Option κ) = .error .assertionError ∧
    emit_mcp mcp em (some cb) = .ok (.kafkaEmit mcp cb) := by
  constructor <;> simp [emit_mcp, hname]

/-- C7 witness: a concrete Kafka-named asynchronous handle. -/
theorem C7_kafka_requires_callback_witness :
    emit_mcp (κ := Nat)
        { entityType := "dataset", changeType := "UPSERT"
          entityUrn := some "urn:li:dataset:a", entityKeyAspect := none
          auditHeader := none, aspectName := some "status", aspect := none
          systemMetadata := none }
        ⟨"DatahubKafkaEmitter", .async⟩ none = .error .assertionError ∧
    emit_mcp (κ := Nat)
        { entityType := "dataset", changeType := "UPSERT"
          entityUrn := some "urn:li:dataset:a", entityKeyAspect := none
          auditHeader := none, aspectName := some "status", aspect := none
          systemMetadata := none }
        ⟨"DatahubKafkaEmitter", .async⟩ (some 3) =
      .ok (.kafkaEmit
        { entityType := "dataset", changeType := "UPSERT"
          entityUrn := some "urn:li:dataset:a", entityKeyAspect := none
          auditHeader := none, aspectName := some "status", aspect := none
          systemMetadata := none } 3) :=
  C7_kafka_requires_callback _ ⟨"DatahubKafkaEmitter", .async⟩ 3 rfl

/-- C2: on every well-formed aspect structure (no nulls, no byte leaves,
no `fieldDiscriminator` and no ambiguous single-key union), the reverse
transform undoes the wire transform: `fromWire(toWire(x)) == x`. -/
theorem C2_wire_roundtrip (x : JVal) (hx : goodAspect x = true) :
    (pre_json_transform x).bind post_json_transform = some x :=
  pre_post_roundtrip x hx

/-- C2 witness: a representative nested aspect structure round-trips. -/
theorem C2_wire_roundtrip_witness :
    goodAspect (JVal.obj
      [("com.linkedin.pegasus2avro.dataset.DatasetProperties",
        .obj [("description", .str "d"), ("tags", .arr [.str "t1", .num 2])])])
        = true ∧
    (pre_json_transform (JVal.obj
      [("com.linkedin.pegasus2avro.dataset.DatasetProperties",
        .obj [("description", .str "d"), ("tags", .arr [.str "t1", .num 2])])])).bind
        post_json_transform =
      some (JVal.obj
        [("com.linkedin.pegasus2avro.dataset.DatasetProperties",
          .obj [("description", .str "d"), ("tags", .arr [.str "t1", .num 2])])]) := by
  have hg : goodAspect (JVal.obj
      [("com.linkedin.pegasus2avro.dataset.DatasetProperties",
        .obj [("description", .str "d"), ("tags", .arr [.str "t1", .num 2])])])
      = true := by
    rw [good_obj_single, good_obj_ne_single _ (by simp)]
    rw [show strStartsWith "com.linkedin.pegasus2avro.dataset.DatasetProperties"
      "com.linkedin.pegasus2avro." = true from by decide]
    simp
  exact ⟨hg, C2_wire_roundtrip _ hg⟩

/-- C8 counterexample: two handles exposing the same (asynchronous)
capability are dispatched differently once one is renamed — the dispatcher
keys on `type(emitter).__name__`, not on the capability. -/
theorem C8_dispatch_counterexample :
    (Emitter.mk "DatahubKafkaEmitter" EmitCapability.async).capability =
      (Emitter.mk "OtherKafkaEmitter" EmitCapability.async).capability ∧
    emit_mcp (κ := Nat)
        { entityType := "dataset", changeType := "UPSERT"
          entityUrn := some "urn:li:dataset:a", entityKeyAspect := none
          auditHeader := none, aspectName := some "status", aspect := none
          systemMetadata := none }
        ⟨"DatahubKafkaEmitter", .async⟩ (some 1) =
      .ok (.kafkaEmit
        { entityType := "dataset", changeType := "UPSERT"
          entityUrn := some "urn:li:dataset:a", entityKeyAspect := none
          auditHeader := none, aspectName := some "status", aspect := none
          systemMetadata := none } 1) ∧
    emit_mcp (κ := Nat)
        { entityType := "dataset", changeType := "UPSERT"
          entityUrn := some "urn:li:dataset:a", entityKeyAspect := none
          auditHeader := none, aspectName := some "status", aspect := none
          systemMetadata := none }
        ⟨"OtherKafkaEmitter", .async⟩ (some 1) =
      .ok (.restEmit
        { entityType := "dataset", changeType := "UPSERT"
          entityUrn := some "urn:li:dataset:a", entityKeyAspect := none
          auditHeader := none, aspectName := some "status", aspect := none
          systemMetadata := none }) :=
  ⟨rfl, rfl, rfl⟩

/-- C8 amended: the dispatcher selects the path solely from the handle's
class name — two handles with the same class name are dispatched the same
way whatever capability they expose, and any handle not named
`DatahubKafkaEmitter` gets the synchronous path. -/
theorem C8_dispatch_by_class_name {κ : Type}
    (mcp : MetadataChangeProposalWrapper) (cb : Option κ) :
    (∀ e1 e2 : Emitter, e1.className = e2.className →
      emit_mcp mcp e1 cb = emit_mcp mcp e2 cb) ∧
    (∀ e : Emitter, ¬(e.className = "DatahubKafkaEmitter") →
      emit_mcp mcp e cb = .ok (.restEmit mcp)) := by
  constructor
  · intro e1 e2 h
    simp [emit_mcp, h]
  · intro e h
    simp [emit_mcp, h]

/-- C8 amended witness: a rest-named handle dispatches the same under
either capability, down the synchronous path. -/
theorem C8_dispatch_by_class_name_witness :
    emit_mcp (κ := Nat)
        { entityType := "dataset", changeType := "UPSERT"
          entityUrn := some "urn:li:dataset:a", entityKeyAspect := none
          auditHeader := none, aspectName := some "status", aspect := none
          systemMetadata := none }
        ⟨"DatahubRestEmitter", .sync⟩ none =
      emit_mcp (κ := Nat)
        { entityType := "dataset", changeType := "UPSERT"
          entityUrn := some "urn:li:dataset:a", entityKeyAspect := none
          auditHeader := none, aspectName := some "status", aspect := none
          systemMetadata := none }
        ⟨"DatahubRestEmitter", .async⟩ none ∧
    emit_mcp (κ := Nat)
        { entityType := "dataset", changeType := "UPSERT"
          entityUrn := some "urn:li:dataset:a", entityKeyAspect := none
          auditHeader := none, aspectName := some "status", aspect := none
          systemMetadata := none }
        ⟨"DatahubRestEmitter", .sync⟩ none =
      .ok (.restEmit
        { entityType := "dataset", changeType := "UPSERT"
          entityUrn := some "urn:li:dataset:a", entityKeyAspect := none
          auditHeader := none, aspectName := some "status", aspect := none
          systemMetadata := none }) :=
  ⟨(C8_dispatch_by_class_name _ none).1 ⟨"DatahubRestEmitter", .sync⟩
      ⟨"DatahubRestEmitter", .async⟩ rfl,
    (C8_dispatch_by_class_name _ none).2 ⟨"DatahubRestEmitter", .sync⟩ (by decide)⟩

/-- C9 counterexample: the query body POSTed by
`get_latest_timeseries_value` is not `{..., filter: {and: [...]}}` — the
code wraps the conjunction in a disjunction: `filter: {or: [{and:
[...]}]}`. -/
theorem C9_query_body_counterexample :
    get_latest_timeseries_query_body "urn:li:dataJob:j1"
        "datahubIngestionCheckpoint"
        [("pipelineName", "p"), ("platformInstanceId", "i")] ≠
      .ok (.obj [
        ("urn", .str "urn:li:dataJob:j1"),
        ("entity", .str "dataJob"),
        ("aspect", .str "datahubIngestionCheckpoint"),
        ("latestValue", .bool true),
        ("filter", .obj [("and", .arr [
          .obj [("field", .str "pipelineName"), ("value", .str "p"),
                ("condition", .str "EQUAL")],
          .obj [("field", .str "platformInstanceId"), ("value", .str "i"),
                ("condition", .str "EQUAL")]])])]) := by
  intro h
  have hbody : get_latest_timeseries_query_body "urn:li:dataJob:j1"
      "datahubIngestionCheckpoint"
      [("pipelineName", "p"), ("platformInstanceId", "i")] =
    .ok (.obj [
      ("urn", .str "urn:li:dataJob:j1"),
      ("entity", .str "dataJob"),
      ("aspect", .str "datahubIngestionCheckpoint"),
      ("latestValue", .bool true),
      ("filter", .obj [("or", .arr [.obj [("and", .arr [
        .obj [("field", .str "pipelineName"), ("value", .str "p"),
              ("condition", .str "EQUAL")],
        .obj [("field", .str "platformInstanceId"), ("value", .str "i"),
              ("condition", .str "EQUAL")]])]])])]) := rfl
  rw [hbody] at h
  simp at h

/-- C9 amended: for a dataJob urn, the POSTed query body carries the urn,
entity `dataJob`, the aspect name, `latestValue: true`, and the two EQUAL
filter criteria conjoined under an `and` that the code wraps in a
single-element `or`; and a response carrying no values (missing or empty
list) makes the call return none. -/
theorem C9_query_body_amended (u a p i : String)
    (hg : guess_entity_type u = .ok "dataJob") :
    get_latest_timeseries_query_body u a
        [("pipelineName", p), ("platformInstanceId", i)] =
      .ok (.obj [
        ("urn", .str u),
        ("entity", .str "dataJob"),
        ("aspect", .str a),
        ("latestValue", .bool true),
        ("filter", .obj [("or", .arr [.obj [("and", .arr [
          .obj [("field", .str "pipelineName"), ("value", .str p),
                ("condition", .str "EQUAL")],
          .obj [("field", .str "platformInstanceId"), ("value", .str i),
                ("condition", .str "EQUAL")]])]])])]) ∧
    (∀ resp : JVal, jget (jgetD resp "value" (.obj [])) "values" = none →
      get_latest_timeseries_value resp = .ok none) ∧
    (∀ resp : JVal,
      jget (jgetD resp "value" (.obj [])) "values" = some (.arr []) →
      get_latest_timeseries_value resp = .ok none) := by
  refine ⟨?_, ?_, ?_⟩
  · simp only [get_latest_timeseries_query_body, hg]
    rfl
  · intro resp h
    simp [get_latest_timeseries_value, h]
  · intro resp h
    simp [get_latest_timeseries_value, h, JVal.truthy]

/-- C9 amended witness: a concrete dataJob urn and an empty-valued
response. -/
theorem C9_query_body_amended_witness :
    get_latest_timeseries_query_body "urn:li:dataJob:j1"
        "datahubIngestionCheckpoint"
        [("pipelineName", "p"), ("platformInstanceId", "i")] =
      .ok (.obj [
        ("urn", .str "urn:li:dataJob:j1"),
        ("entity", .str "dataJob"),
        ("aspect", .str "datahubIngestionCheckpoint"),
        ("latestValue", .bool true),
        ("filter", .obj [("or", .arr [.obj [("and", .arr [
          .obj [("field", .str "pipelineName"), ("value", .str "p"),
                ("condition", .str "EQUAL")],
          .obj [("field", .str "platformInstanceId"), ("value", .str "i"),
                ("condition", .str "EQUAL")]])]])])]) ∧
    get_latest_timeseries_value (.obj [("value", .obj [])]) = .ok none :=
  ⟨(C9_query_body_amended "urn:li:dataJob:j1" "datahubIngestionCheckpoint"
      "p" "i" rfl).1,
    (C9_query_body_amended "urn:li:dataJob:j1" "datahubIngestionCheckpoint"
      "p" "i" rfl).2.1 (.obj [("value", .obj [])]) rfl⟩

/-- C10 counterexample: a null-valued entry is not always dropped — a
single-key dict whose key matches the direction's source namespace is
rewritten as a tagged union and keeps its null value. -/
theorem C10_null_drop_counterexample :
    pre_json_transform (.obj [("com.linkedin.pegasus2avro.A", .null)]) =
      some (.obj [("com.linkedin.A", .null)]) := by
  rw [pre_json_transform,
    jt_obj_single_hit _ _ _
      (show strStartsWith "com.linkedin.pegasus2avro.A"
        "com.linkedin.pegasus2avro." = true from by decide),
    jt_null,
    show strReplaceOnce "com.linkedin.pegasus2avro.A"
      "com.linkedin.pegasus2avro." "com.linkedin." = "com.linkedin.A"
      from by decide]
  rfl

/-- C10 amended: on every dict that is not treated as a tagged union
(single key matching a namespace) nor as a discriminated union
(`fieldDiscriminator`), whenever either direction of the transform
returns, it has dropped exactly the null-valued entries — `fromWire` is
as lossy on nulls as `toWire`, since both share the traversal. -/
theorem C10_null_drop_both_directions (es : List (String × JVal))
    (hdisc : lookupKey es "fieldDiscriminator" = none)
    (hsingle : ∀ k v, es = [(k, v)] →
      strStartsWith k "com.linkedin." = false) :
    (∀ y, pre_json_transform (.obj es) = some y →
      ∃ es', y = .obj es' ∧
        es'.map Prod.fst =
          (es.filter (fun kv => !kv.2.isNone)).map Prod.fst) ∧
    (∀ y, post_json_transform (.obj es) = some y →
      ∃ es', y = .obj es' ∧
        es'.map Prod.fst =
          (es.filter (fun kv => !kv.2.isNone)).map Prod.fst) := by
  constructor
  · intro y h
    apply jt_obj_keys _ _ _ hdisc _ y h
    intro k v hes
    have hl := hsingle k v hes
    by_cases hp : strStartsWith k "com.linkedin.pegasus2avro." = true
    · have hl2 := strStartsWith_trans (L := "com.linkedin.") hp (by decide)
      rw [hl2] at hl
      cases hl
    · simpa using hp
  · intro y h
    exact jt_obj_keys _ _ _ hdisc (fun k v hes => hsingle k v hes) y h

/-- C10 amended witness: `{"a": null, "b": 1}` loses `a` in the wire
direction. -/
theorem C10_null_drop_both_directions_witness :
    ∃ es', JVal.obj [("b", JVal.num 1)] = .obj es' ∧
      es'.map Prod.fst =
        ([("a", JVal.null), ("b", JVal.num 1)].filter
          (fun kv => !kv.2.isNone)).map Prod.fst := by
  apply (C10_null_drop_both_directions [("a", JVal.null), ("b", JVal.num 1)]
    rfl (by intro k v h; exact absurd h (by simp))).1
  rw [pre_json_transform, jt_obj_ne_single _ _ _ (by simp)]
  simp [json_transform_dict, lookupKey, jte_cons_null, jte_cons, JVal.isNone]

end DatahubCore

